import Mathlib

/-!
Verification of the KeloPay blockchain-webhook transaction-ingestion pipeline.

Shallow embedding of the pipeline in src/client:
  - lib/contracts/index.ts (indexer: NETWORK_CONFIG, getNetworkFromChainId;
    processor: processTransaction, determineTransactionType, parseAlchemyWebhook)
  - app/api/webhooks/alchemy/route.ts (POST handler, verifyWebhookSignature)
  - lib/api/utils.ts (handleApiError, errorResponse, successResponse)

Modelling conventions:
  - The Prisma relational store is modelled as an in-memory Store holding the
    user and transaction rows; row ids are modelled by counters.
  - JavaScript exceptions are modelled with Except; JS builtins used by the
    source (parseInt with radix 16, BigInt conversion, String.prototype
    .toLowerCase, crypto.timingSafeEqual) are modelled by explicit functions
    below.  parseInt returns an IEEE-754 double, so its result is rounded to
    53 significant bits (round to nearest, ties to even); values that round to
    at least 2 to the 1024 overflow to Infinity, and NaN and Infinity are both
    modelled as the none value of an Option Nat (BigInt conversion throws on
    either).  The HMAC-SHA256 digest itself is platform code and is passed in
    as an abstract function parameter.
  - The JSON envelope is modelled by the Envelope structure below, following
    exactly the fields the source reads; optional JSON fields are Option.
    The outcome of JSON.parse on the raw request body is carried in the
    request as an Option Envelope (none models a thrown SyntaxError); the
    JSON grammar itself is platform code and is not remodelled.  Logging
    statements of the source are elided.
-/

namespace KeloPay

/-- Decidable equality for Except results, used to evaluate the pipeline on
concrete inputs. -/
instance {ε α : Type} [DecidableEq ε] [DecidableEq α] : DecidableEq (Except ε α) := fun a b =>
  match a, b with
  | Except.ok x, Except.ok y =>
    if h : x = y then isTrue (congrArg Except.ok h)
    else isFalse (fun hc => h (Except.ok.inj hc))
  | Except.ok _, Except.error _ => isFalse (fun hc => Except.noConfusion hc)
  | Except.error _, Except.ok _ => isFalse (fun hc => Except.noConfusion hc)
  | Except.error e, Except.error f =>
    if h : e = f then isTrue (congrArg Except.error h)
    else isFalse (fun hc => h (Except.error.inj hc))

/-- Prisma UserRole enum (prisma schema, seed.ts). -/
inductive UserRole
  | USER
  | ADMIN
  | OPERATIONS
  | GROWTH
  | MERCHANT
deriving DecidableEq, Inhabited

/-- Prisma TransactionType enum (types/analytics.ts, prisma schema). -/
inductive TransactionType
  | DEPOSIT
  | WITHDRAWAL
  | CONVERSION
  | PAYMENT
  | TRANSFER
  | REFUND
deriving DecidableEq, Inhabited

/-- Prisma TransactionStatus enum (types/analytics.ts, prisma schema). -/
inductive TransactionStatus
  | PENDING
  | CONFIRMED
  | COMPLETED
  | FAILED
  | CANCELLED
deriving DecidableEq, Inhabited

/-- The status field of ProcessTransactionInput: the TS union of the two
string literals for success and failed. -/
inductive StatusFlag
  | success
  | failed
deriving DecidableEq, Inhabited

/-- JavaScript errors thrown by the pipeline, tagged by the class and name
that handleApiError in lib/api/utils.ts discriminates on. -/
inductive JsError
  | jsonSyntaxErr (message : String)
  | bigintConvertErr (message : String)
  | prismaKnownRequestErr (message : String)
  | zodErr (message : String)
  | genericErr (message : String)
deriving DecidableEq, Inhabited

/-- Message carried by a JS error (the error.message property). -/
def JsError.message : JsError → String
  | .jsonSyntaxErr m => m
  | .bigintConvertErr m => m
  | .prismaKnownRequestErr m => m
  | .zodErr m => m
  | .genericErr m => m

/-- Response body, as built by successResponse and errorResponse in
lib/api/utils.ts.  The success payload of the webhook route carries
processed, txHash and transactionId; processed is the constant true. -/
inductive Resp
  | ok (txHash : String) (transactionId : Nat)
  | err (message : String)
deriving DecidableEq, Inhabited

/-! JS numeric builtin models -/

/-- Value of one hexadecimal digit character, none if not a hex digit. -/
def hexDigitVal? (c : Char) : Option Nat :=
  if '0' ≤ c ∧ c ≤ '9' then some (c.toNat - '0'.toNat)
  else if 'a' ≤ c ∧ c ≤ 'f' then some (c.toNat - 'a'.toNat + 10)
  else if 'A' ≤ c ∧ c ≤ 'F' then some (c.toNat - 'A'.toNat + 10)
  else none

/-- Value of one decimal digit character, none if not a decimal digit. -/
def decDigitVal? (c : Char) : Option Nat :=
  if '0' ≤ c ∧ c ≤ '9' then some (c.toNat - '0'.toNat) else none

/-- Value of a nonempty all-hex-digit character list, most significant first. -/
def hexListVal? (cs : List Char) : Option Nat :=
  if cs = [] then none
  else if cs.all (fun c => (hexDigitVal? c).isSome) then
    some (cs.foldl (fun a c => a * 16 + (hexDigitVal? c).getD 0) 0)
  else none

/-- Value of a nonempty all-decimal-digit character list. -/
def decListVal? (cs : List Char) : Option Nat :=
  if cs = [] then none
  else if cs.all (fun c => (decDigitVal? c).isSome) then
    some (cs.foldl (fun a c => a * 10 + (decDigitVal? c).getD 0) 0)
  else none

/-- Exact mathematical value read by parseInt(s, 16): an optional 0x or 0X
marker followed by the longest leading run of hex digits; none when that run
is empty (parseInt returns NaN there).  This is the value before the
conversion to an IEEE-754 double. -/
def hexStrVal? (s : String) : Option Nat :=
  let cs :=
    match s.toList with
    | '0' :: 'x' :: rest => rest
    | '0' :: 'X' :: rest => rest
    | cs => cs
  hexListVal? (cs.takeWhile (fun c => (hexDigitVal? c).isSome))

/-- Floor of the base-two logarithm, by fueled halving (structural, so that
proofs can evaluate it on literals).  With the fuel used below it is exact
for every positive argument below 2 ^ 1100, which covers every argument the
call site in roundToFloat64 can pass after its overflow guard. -/
def log2Aux : Nat → Nat → Nat
  | 0, _ => 0
  | fuel + 1, n => if n ≤ 1 then 0 else 1 + log2Aux fuel (n / 2)

/-- Floor of the base-two logarithm, exact for arguments below 2 ^ 1100. -/
def floorLog2 (n : Nat) : Nat := log2Aux 1100 n

/-- Rounding of a natural number to the nearest IEEE-754 binary64 value
(53 significant bits, round to nearest, ties to even).  Exact below 2 ^ 53;
intended for arguments below 2 ^ 1024 (larger ones are cut off by the
overflow guard of jsParseIntHex before this function is reached). -/
def roundToFloat64 (n : Nat) : Nat :=
  if n < 2 ^ 53 then n
  else
    let k := floorLog2 n + 1 - 53
    let q := n / 2 ^ k
    let r := n % 2 ^ k
    let half := 2 ^ (k - 1)
    if half < r ∨ (r = half ∧ q % 2 = 1) then (q + 1) * 2 ^ k else q * 2 ^ k

/-- Model of parseInt(s, 16): the exact read value converted to a JS number
(a binary64 double).  none models NaN (no digits read) as well as Infinity:
a read value at least 2 ^ 1024 (written 16 ^ 256 below) overflows, and so
does a smaller one that rounds up to 2 ^ 1024.  BigInt conversion later in
the pipeline throws on NaN and Infinity alike. -/
def jsParseIntHex (s : String) : Option Nat :=
  match hexStrVal? s with
  | none => none
  | some n =>
    if 16 ^ 256 ≤ n then none
    else
      let r := roundToFloat64 n
      if r < 16 ^ 256 then some r else none

/-- Model of BigInt(s) on a string: empty string is zero, a 0x or 0X marker
reads hex, a leading minus reads a negated decimal string, otherwise the
whole string must be decimal digits; none models the thrown SyntaxError.
Surrounding whitespace and the 0b and 0o markers are not modelled (unused by
the pipeline inputs). -/
def jsBigInt (s : String) : Option Int :=
  match s.toList with
  | [] => some 0
  | '0' :: 'x' :: rest => (hexListVal? rest).map (fun n => (n : Int))
  | '0' :: 'X' :: rest => (hexListVal? rest).map (fun n => (n : Int))
  | '-' :: rest => (decListVal? rest).map (fun n => -(n : Int))
  | cs => (decListVal? cs).map (fun n => (n : Int))

/-- BigInt(s) with the thrown SyntaxError made explicit. -/
def jsBigIntE (s : String) : Except JsError Int :=
  match jsBigInt s with
  | some v => Except.ok v
  | none => Except.error (JsError.bigintConvertErr "Cannot convert string to a BigInt")

/-- Model of BigInt(x) on a JS number holding an integer; throws on NaN and
on Infinity (both modelled by none). -/
def jsNumberBigIntE (x : Option Nat) : Except JsError Int :=
  match x with
  | some n => Except.ok (n : Int)
  | none => Except.error (JsError.bigintConvertErr "Cannot convert a non-integer number to a BigInt")

/-- Model of String.prototype.toLowerCase restricted to the ASCII range used
by hex wallet addresses. -/
def jsToLowerCase (s : String) : String :=
  String.mk (s.toList.map Char.toLower)

/-- Default of the JS expression x or-else d on an optional string: the
default is taken when the field is absent or the empty string (falsy). -/
def jsOrString (x : Option String) (d : String) : String :=
  match x with
  | none => d
  | some s => if s = "" then d else s

/-- Default of the JS expression x or-else d on an optional integer: the
default is taken when the field is absent or zero (falsy). -/
def jsOrInt (x : Option Int) (d : Int) : Int :=
  match x with
  | none => d
  | some n => if n = 0 then d else n

/-- Default of the JS expression x or-else d on an optional natural number:
the default is taken when the field is absent or zero (falsy). -/
def jsOrNat (x : Option Nat) (d : Nat) : Nat :=
  match x with
  | none => d
  | some n => if n = 0 then d else n

/-- String coercion applied by parseInt to its first argument: an absent
field (the JS undefined) is coerced to the literal text undefined. -/
def jsUndefString (x : Option String) : String :=
  match x with
  | none => "undefined"
  | some s => s

/-! Data model: the Prisma rows touched by the pipeline -/

/-- A user row (prisma User): the fields the pipeline reads and writes. -/
structure User where
  id : Nat
  walletAddress : String
  role : UserRole
deriving DecidableEq, Inhabited

/-- A transaction row (prisma Transaction): the fields written by
processTransaction.  The metadata JSON column is flattened into its three
constituents. -/
structure Transaction where
  id : Nat
  userId : Nat
  txHash : String
  blockNumber : Int
  timestamp : Nat
  network : String
  chainId : Int
  type : TransactionType
  status : TransactionStatus
  fromAddress : String
  toAddress : String
  fromTokenSymbol : String
  fromTokenAddress : String
  fromTokenAmount : String
  fromTokenDecimals : Nat
  toFiatCurrency : String
  toFiatAmount : Int
  exchangeRate : Int
  gasFeeWei : String
  gasFeeUSD : Int
  platformFeeUSD : Int
  metaRawValue : String
  metaGasUsed : String
  metaGasPrice : String
deriving DecidableEq, Inhabited

/-- The relational store: user and transaction tables, with the row-id
generators modelled as counters. -/
structure Store where
  users : List User
  transactions : List Transaction
  nextUserId : Nat
  nextTxId : Nat
deriving DecidableEq, Inhabited

/-- prisma.transaction.findUnique on the txHash unique key. -/
def findTxByHash (s : Store) (h : String) : Option Transaction :=
  s.transactions.find? (fun t => t.txHash == h)

/-- prisma.user.findUnique on the walletAddress unique key. -/
def findUserByAddr (s : Store) (addr : String) : Option User :=
  s.users.find? (fun u => u.walletAddress == addr)

/-- Number of stored transaction rows carrying a given hash. -/
def countTxByHash (s : Store) (h : String) : Nat :=
  (s.transactions.filter (fun t => t.txHash == h)).length

/-! Indexer: network configuration (lib/blockchain/indexer.ts) -/

/-- NETWORK_CONFIG of the indexer, with the Alchemy SDK handles dropped:
network name and chain id, in object-literal insertion order. -/
def NETWORK_CONFIG : List (String × Int) :=
  [("ethereum", 1), ("sepolia", 11155111), ("base", 8453),
   ("base-sepolia", 84532), ("arbitrum", 42161), ("arbitrum-sepolia", 421614)]

/-- getNetworkFromChainId of the indexer: first configured network carrying
the chain id, throwing an Error when none matches. -/
def getNetworkFromChainId (chainId : Int) : Except JsError String :=
  match NETWORK_CONFIG.find? (fun p => p.2 == chainId) with
  | some p => Except.ok p.1
  | none => Except.error (JsError.genericErr "Unknown chain ID")

/-! Payload parser (lib/blockchain/processor.ts) -/

/-- One entry of the webhook activity array, with exactly the fields the
parser reads.  Fields the parser guards with a default or a conditional are
Option; hash, fromAddress and toAddress are read without any guard and are
modelled as present (the source passes whatever value appears, including the
JS undefined, straight through its untyped record). -/
structure Activity where
  hash : String
  blockNum : Option String
  fromAddress : String
  toAddress : String
  value : Option String
  gasUsed : Option String
  gasPrice : Option String
  status : Option String
  chainId : Option Int
  timestamp : Option Nat
deriving DecidableEq, Inhabited

/-- The event member of the webhook envelope. -/
structure WebhookEvent where
  activity : List Activity
deriving DecidableEq, Inhabited

/-- The provider webhook envelope, following the optional-chaining access
path of the source: an absent event member, an absent or empty activity
array all make the first activity undefined. -/
structure Envelope where
  type : String
  event : Option WebhookEvent
deriving DecidableEq, Inhabited

/-- The expression payload.event with optional chaining down to the first
activity entry. -/
def firstActivity (payload : Envelope) : Option Activity :=
  match payload.event with
  | none => none
  | some ev => ev.activity.head?

/-- The canonical record built by the parser (TS ProcessTransactionInput).
blockNumber is a JS number produced by parseInt and may be NaN, modelled by
none. -/
structure ProcessTransactionInput where
  txHash : String
  blockNumber : Option Nat
  timestamp : Nat
  network : String
  chainId : Int
  fromAddress : String
  toAddress : String
  value : String
  gasUsed : String
  gasPrice : String
  status : StatusFlag
deriving DecidableEq, Inhabited

/-- parseAlchemyWebhook: extracts the canonical record from the envelope.
Returns none (the explicit no-data result) when there is no first activity
entry, and also when getNetworkFromChainId throws, since the catch block of
the source converts any exception of the extraction into the null result.
The now parameter carries Date.now for the timestamp default. -/
def parseAlchemyWebhook (now : Nat) (payload : Envelope) : Option ProcessTransactionInput :=
  match firstActivity payload with
  | none => none
  | some tx =>
    match getNetworkFromChainId (jsOrInt tx.chainId 1) with
    | Except.error _ => none
    | Except.ok network =>
      some {
        txHash := tx.hash
        blockNumber := jsParseIntHex (jsUndefString tx.blockNum)
        timestamp := jsOrNat tx.timestamp now
        network := network
        chainId := jsOrInt tx.chainId 1
        fromAddress := tx.fromAddress
        toAddress := tx.toAddress
        value := jsOrString tx.value "0"
        gasUsed := jsOrString tx.gasUsed "0"
        gasPrice := jsOrString tx.gasPrice "0"
        status := if tx.status = some "0x1" then StatusFlag.success else StatusFlag.failed
      }

/-! Idempotent persister and classifier (lib/blockchain/processor.ts) -/

/-- determineTransactionType: transfer when the transferred value is
positive, conversion otherwise.  BigInt conversion of the value string may
throw. -/
def determineTransactionType (input : ProcessTransactionInput) : Except JsError TransactionType :=
  match jsBigInt input.value with
  | none => Except.error (JsError.bigintConvertErr "Cannot convert input value to a BigInt")
  | some valueInWei =>
    if 0 < valueInWei then Except.ok TransactionType.TRANSFER
    else Except.ok TransactionType.CONVERSION

/-- The find-or-create step of processTransaction on the user table: lookup
by (already lowercased) wallet address, creating a row with the default USER
role when absent. -/
def findOrCreateUser (s : Store) (walletAddress : String) : User × Store :=
  match findUserByAddr s walletAddress with
  | some u => (u, s)
  | none =>
    let u : User := { id := s.nextUserId, walletAddress := walletAddress, role := UserRole.USER }
    (u, { s with users := s.users ++ [u], nextUserId := s.nextUserId + 1 })

/-- processTransaction: skip (returning the stored row) when the hash is
already present; otherwise classify, derive the status, compute the gas fee
as a BigInt product, find or create the user by lowercased sender address,
and insert the new row.  Thrown BigInt conversion errors propagate to the
caller, matching the rethrow of the source's catch block. -/
def processTransaction (s : Store) (input : ProcessTransactionInput) :
    Except JsError (Transaction × Store) :=
  match findTxByHash s input.txHash with
  | some existingTx => Except.ok (existingTx, s)
  | none =>
    match determineTransactionType input with
    | Except.error e => Except.error e
    | Except.ok transactionType =>
      let transactionStatus :=
        if input.status = StatusFlag.success then TransactionStatus.COMPLETED
        else TransactionStatus.FAILED
      match jsBigIntE input.gasUsed with
      | Except.error e => Except.error e
      | Except.ok gasUsedWei =>
        match jsBigIntE input.gasPrice with
        | Except.error e => Except.error e
        | Except.ok gasPriceWei =>
          let gasFeeWei := toString (gasUsedWei * gasPriceWei)
          let us := findOrCreateUser s (jsToLowerCase input.fromAddress)
          match jsNumberBigIntE input.blockNumber with
          | Except.error e => Except.error e
          | Except.ok blockNumberBig =>
            let tx : Transaction := {
              id := us.2.nextTxId
              userId := us.1.id
              txHash := input.txHash
              blockNumber := blockNumberBig
              timestamp := input.timestamp
              network := input.network
              chainId := input.chainId
              type := transactionType
              status := transactionStatus
              fromAddress := jsToLowerCase input.fromAddress
              toAddress := jsToLowerCase input.toAddress
              fromTokenSymbol := "ETH"
              fromTokenAddress := "0x0000000000000000000000000000000000000000"
              fromTokenAmount := input.value
              fromTokenDecimals := 18
              toFiatCurrency := "USD"
              toFiatAmount := 0
              exchangeRate := 0
              gasFeeWei := gasFeeWei
              gasFeeUSD := 0
              platformFeeUSD := 0
              metaRawValue := input.value
              metaGasUsed := input.gasUsed
              metaGasPrice := input.gasPrice }
            Except.ok (tx, { us.2 with
              transactions := us.2.transactions ++ [tx],
              nextTxId := us.2.nextTxId + 1 })

/-! Webhook route (app/api/webhooks/alchemy/route.ts) and error mapping
(lib/api/utils.ts) -/

/-- handleApiError: Zod validation errors map to 400, known Prisma request
errors to a generic 500, any other Error to 500 carrying its message. -/
def handleApiError : JsError → Nat × Resp
  | JsError.zodErr _ => (400, Resp.err "Validation failed")
  | JsError.prismaKnownRequestErr _ => (500, Resp.err "Database error")
  | e => (500, Resp.err e.message)

/-- crypto.timingSafeEqual on the UTF-8 buffers of two strings: throws when
the byte lengths differ, otherwise compares contents (in constant time, a
timing property outside this model). -/
def timingSafeEqualE (a b : String) : Except JsError Bool :=
  if a.utf8ByteSize = b.utf8ByteSize then Except.ok (decide (a = b))
  else Except.error (JsError.genericErr "Input buffers must have the same byte length")

/-- verifyWebhookSignature: accepts unconditionally when no signing key is
configured, fails closed on a missing signature header, and otherwise
compares the claimed signature against the keyed hash of the raw body,
treating any error thrown by the comparison as verification failure.  The
HMAC-SHA256 digest is platform code, passed in as the function hmacSha256. -/
def verifyWebhookSignature (hmacSha256 : String → String → String)
    (signingKey : Option String) (body : String) (signature : Option String) : Bool :=
  match signingKey with
  | none => true
  | some key =>
    match signature with
    | none => false
    | some sig =>
      match timingSafeEqualE sig (hmacSha256 key body) with
      | Except.ok b => b
      | Except.error _ => false

/-- An inbound POST request: the raw body text, the outcome of JSON.parse on
it (none models the thrown SyntaxError), and the x-alchemy-signature header. -/
structure PostRequest where
  rawBody : String
  parsedBody : Option Envelope
  signature : Option String
deriving DecidableEq, Inhabited

/-- The POST handler of the webhook route: parse the JSON body (a parse
failure is thrown and lands in the generic error handler), verify the
signature (401 on failure), parse the envelope (400 on the no-data result),
then process the transaction (200 with hash and row id on success, the
generic error handler on a thrown error).  The signing secret from the
environment and Date.now are passed in as parameters. -/
def POST (hmacSha256 : String → String → String) (secret : Option String) (now : Nat)
    (s : Store) (req : PostRequest) : (Nat × Resp) × Store :=
  match req.parsedBody with
  | none => (handleApiError (JsError.jsonSyntaxErr "Unexpected token in JSON"), s)
  | some payload =>
    if verifyWebhookSignature hmacSha256 secret req.rawBody req.signature then
      match parseAlchemyWebhook now payload with
      | none => ((400, Resp.err "Invalid webhook payload"), s)
      | some transactionData =>
        match processTransaction s transactionData with
        | Except.ok (transaction, s2) => ((200, Resp.ok transaction.txHash transaction.id), s2)
        | Except.error e => (handleApiError e, s)
    else ((401, Resp.err "Invalid signature"), s)

/-! Concrete inputs used by the instance theorems below -/

/-- A placeholder HMAC function for concrete runs (the digest is abstract in
the model; any function exercises the pipeline). -/
def demoHmac : String → String → String := fun key body => key ++ "." ++ body

/-- An empty store. -/
def store0 : Store := { users := [], transactions := [], nextUserId := 1, nextTxId := 1 }

/-- A well-formed activity entry: one ETH transferred, provider success. -/
def act1 : Activity := {
  hash := "0xaaa1", blockNum := some "0x10", fromAddress := "0xAbCd", toAddress := "0xEf01",
  value := some "1000000000000000000", gasUsed := some "21000", gasPrice := some "30000000000",
  status := some "0x1", chainId := some 1, timestamp := some 1700000000000 }

/-- Envelope carrying act1. -/
def env1 : Envelope := { type := "ADDRESS_ACTIVITY", event := some { activity := [act1] } }

/-- An activity entry with zero value and provider failure. -/
def act2 : Activity := { act1 with hash := "0xaaa2", value := some "0", status := some "0x0" }

/-- Envelope carrying act2. -/
def env2 : Envelope := { type := "ADDRESS_ACTIVITY", event := some { activity := [act2] } }

/-- Envelope with no event member, hence no first activity entry. -/
def envNoAct : Envelope := { type := "ADDRESS_ACTIVITY", event := none }

/-- Activity whose hex block number is two to the 53 plus one, the first
integer not representable in a binary64 double. -/
def actC6 : Activity := { act1 with blockNum := some "0x20000000000001" }

/-- Envelope carrying actC6. -/
def envC6 : Envelope := { type := "ADDRESS_ACTIVITY", event := some { activity := [actC6] } }

/-- Activity carrying the falsy chain id zero. -/
def act10 : Activity := { act1 with chainId := some 0 }

/-- Envelope carrying act10. -/
def env10 : Envelope := { type := "ADDRESS_ACTIVITY", event := some { activity := [act10] } }

/-- Activity carrying chain id 4202 (Lisk Sepolia, present in
CONTRACT_ADDRESSES but not in the indexer's NETWORK_CONFIG). -/
def act10b : Activity := { act1 with chainId := some 4202 }

/-- Envelope carrying act10b. -/
def env10b : Envelope := { type := "ADDRESS_ACTIVITY", event := some { activity := [act10b] } }

/-- The canonical record parsed from env1. -/
def i1 : ProcessTransactionInput := (parseAlchemyWebhook 0 env1).getD default

/-- The transaction row created by ingesting i1 into the empty store. -/
def tx1 : Transaction := ((processTransaction store0 i1).toOption.map Prod.fst).getD default

/-- The store after ingesting i1 into the empty store. -/
def store1 : Store := ((processTransaction store0 i1).toOption.map Prod.snd).getD store0

/-! Helper lemmas -/

theorem findOrCreateUser_transactions (s : Store) (a : String) :
    (findOrCreateUser s a).2.transactions = s.transactions := by
  unfold findOrCreateUser
  split <;> rfl

theorem findOrCreateUser_nextTxId (s : Store) (a : String) :
    (findOrCreateUser s a).2.nextTxId = s.nextTxId := by
  unfold findOrCreateUser
  split <;> rfl

theorem jsBigIntE_ok {t : String} {v : Int} (h : jsBigIntE t = Except.ok v) :
    jsBigInt t = some v := by
  unfold jsBigIntE at h
  split at h <;> simp_all

theorem jsNumberBigIntE_ok {x : Option Nat} {v : Int}
    (h : jsNumberBigIntE x = Except.ok v) : ∃ n, x = some n ∧ v = (n : Int) := by
  unfold jsNumberBigIntE at h
  split at h <;> simp_all

/-- Inversion of the creating branch of processTransaction: when the hash is
new and the call succeeds, every field of the created row and of the new
store is determined. -/
theorem processTransaction_create_inv (s : Store) (i : ProcessTransactionInput)
    (r : Transaction) (s2 : Store)
    (hfind : findTxByHash s i.txHash = none)
    (hp : processTransaction s i = Except.ok (r, s2)) :
    ∃ gu gp bn,
      determineTransactionType i = Except.ok r.type
      ∧ jsBigInt i.gasUsed = some gu
      ∧ jsBigInt i.gasPrice = some gp
      ∧ i.blockNumber = some bn
      ∧ r.status = (if i.status = StatusFlag.success then TransactionStatus.COMPLETED
          else TransactionStatus.FAILED)
      ∧ r.gasFeeWei = toString (gu * gp)
      ∧ r.fromTokenAmount = i.value
      ∧ r.blockNumber = (bn : Int)
      ∧ r.txHash = i.txHash
      ∧ r.id = s.nextTxId
      ∧ r.userId = (findOrCreateUser s (jsToLowerCase i.fromAddress)).1.id
      ∧ s2.users = (findOrCreateUser s (jsToLowerCase i.fromAddress)).2.users
      ∧ s2.transactions = s.transactions ++ [r] := by
  unfold processTransaction at hp
  split at hp
  · simp_all
  · split at hp
    · exact Except.noConfusion hp
    · rename_i ty hty
      simp only [] at hp
      split at hp
      · exact Except.noConfusion hp
      · rename_i gu0 hgu0
        split at hp
        · exact Except.noConfusion hp
        · rename_i gp0 hgp0
          split at hp
          · exact Except.noConfusion hp
          · rename_i bn0 hbn0
            obtain ⟨h1, h2⟩ := Prod.mk.inj (Except.ok.inj hp)
            obtain ⟨n, hn, hv⟩ := jsNumberBigIntE_ok hbn0
            subst h1
            subst h2
            exact ⟨gu0, gp0, n, hty, jsBigIntE_ok hgu0, jsBigIntE_ok hgp0, hn, rfl, rfl,
              rfl, hv, rfl, findOrCreateUser_nextTxId s _, rfl, rfl,
              by simp [findOrCreateUser_transactions]⟩

/-- The skip branch of processTransaction: a stored hash makes the call a
pure read returning the stored row and leaving the store untouched. -/
theorem processTransaction_found (s : Store) (i : ProcessTransactionInput)
    (r : Transaction) (hfind : findTxByHash s i.txHash = some r) :
    processTransaction s i = Except.ok (r, s) := by
  unfold processTransaction
  rw [hfind]

theorem countTxByHash_pos_of_found {s : Store} {h : String} {r : Transaction}
    (hf : findTxByHash s h = some r) : 1 ≤ countTxByHash s h := by
  unfold findTxByHash at hf
  unfold countTxByHash
  have hpr : (r.txHash == h) = true :=
    @List.find?_some _ (fun t => t.txHash == h) r s.transactions hf
  have hmem : r ∈ s.transactions.filter (fun t => t.txHash == h) :=
    List.mem_filter.mpr ⟨List.mem_of_find?_eq_some hf, hpr⟩
  exact List.length_pos.mpr (List.ne_nil_of_mem hmem)

theorem countTxByHash_zero_of_none {s : Store} {h : String}
    (hf : findTxByHash s h = none) : countTxByHash s h = 0 := by
  unfold findTxByHash at hf
  unfold countTxByHash
  have : s.transactions.filter (fun t => t.txHash == h) = [] :=
    List.filter_eq_nil_iff.mpr (List.find?_eq_none.mp hf)
  simp [this]

/-- After a successful call the resulting store always holds the returned
row under the input hash. -/
theorem findTxByHash_after (s : Store) (i : ProcessTransactionInput)
    (r : Transaction) (s2 : Store)
    (hp : processTransaction s i = Except.ok (r, s2)) :
    findTxByHash s2 i.txHash = some r := by
  cases hfind : findTxByHash s i.txHash with
  | some e =>
    have heq := processTransaction_found s i e hfind
    rw [heq] at hp
    obtain ⟨h1, h2⟩ := Prod.mk.inj (Except.ok.inj hp)
    rw [← h2, ← h1]
    exact hfind
  | none =>
    obtain ⟨gu, gp, bn, hty2, hgu2, hgp2, hbn2, hst2, hgf2, hfa2, hbcast, hhash,
      hid2, huid2, husers2, htx⟩ := processTransaction_create_inv s i r s2 hfind hp
    unfold findTxByHash at hfind ⊢
    rw [htx, List.find?_append, hfind]
    simp [List.find?_cons_of_pos, hhash]

/-- C1: ingestion is idempotent on the transaction hash.  A stored hash
makes processTransaction return the first-seen row with the store unchanged
(no duplicate row, no overwrite); after any successful call, redelivering
the identical record again returns the very same row and store, and the
store holds exactly one row under that hash (one when it was fresh, the
already-stored count otherwise). -/
theorem ingestion_idempotent_on_txHash (s : Store) (i : ProcessTransactionInput)
    (r : Transaction) (s2 : Store) :
    (findTxByHash s i.txHash = some r → processTransaction s i = Except.ok (r, s))
    ∧ (processTransaction s i = Except.ok (r, s2) →
        processTransaction s2 i = Except.ok (r, s2)
        ∧ countTxByHash s2 i.txHash = max (countTxByHash s i.txHash) 1) := by
  constructor
  · exact fun hf => processTransaction_found s i r hf
  · intro hp
    refine ⟨processTransaction_found s2 i r (findTxByHash_after s i r s2 hp), ?_⟩
    cases hfind : findTxByHash s i.txHash with
    | some e =>
      have heq := processTransaction_found s i e hfind
      rw [heq] at hp
      obtain ⟨h1, h2⟩ := Prod.mk.inj (Except.ok.inj hp)
      have hpos := countTxByHash_pos_of_found hfind
      rw [← h2]
      exact (Nat.max_eq_left hpos).symm
    | none =>
      obtain ⟨gu, gp, bn, hty2, hgu2, hgp2, hbn2, hst2, hgf2, hfa2, hbcast, hhash,
        hid2, huid2, husers2, htx⟩ := processTransaction_create_inv s i r s2 hfind hp
      have hzero := countTxByHash_zero_of_none hfind
      unfold countTxByHash at hzero ⊢
      rw [htx, List.filter_append]
      simp [List.filter_cons, hhash, hzero]

/-- C1 witness: ingesting the parsed demo record once into the empty store
and redelivering it returns the same row and store, with exactly one stored
row under the hash. -/
theorem ingestion_idempotent_on_txHash_inst :
    processTransaction store1 i1 = Except.ok (tx1, store1)
    ∧ countTxByHash store1 i1.txHash = max (countTxByHash store0 i1.txHash) 1 :=
  (ingestion_idempotent_on_txHash store0 i1 tx1 store1).2 (by decide)

/-- C9: user rows are keyed by the lowercased sender wallet address.  When a
fresh transaction is ingested from an unseen address, a user row with the
lowercased address and the default USER role is appended and the stored
transaction references it; when the (lowercased) address is already known,
the user table is left untouched and the existing row is referenced.  In
both cases every pre-existing user row, role included, survives unchanged. -/
theorem user_keyed_by_lowercased_address (s : Store) (i : ProcessTransactionInput)
    (r : Transaction) (s2 : Store)
    (hfind : findTxByHash s i.txHash = none)
    (hp : processTransaction s i = Except.ok (r, s2)) :
    (findUserByAddr s (jsToLowerCase i.fromAddress) = none →
      s2.users = s.users ++
        [{ id := s.nextUserId, walletAddress := jsToLowerCase i.fromAddress,
           role := UserRole.USER }]
      ∧ r.userId = s.nextUserId)
    ∧ (∀ u, findUserByAddr s (jsToLowerCase i.fromAddress) = some u →
        s2.users = s.users ∧ r.userId = u.id)
    ∧ (∀ u, u ∈ s.users → u ∈ s2.users) := by
  obtain ⟨gu, gp, bn, hty2, hgu2, hgp2, hbn2, hst2, hgf2, hfa2, hbcast, hhash,
    hid2, huid2, husers2, htx⟩ := processTransaction_create_inv s i r s2 hfind hp
  refine ⟨?_, ?_, ?_⟩
  · intro hnone
    simp only [findOrCreateUser, hnone] at huid2 husers2
    exact ⟨husers2, huid2⟩
  · intro u hu
    simp only [findOrCreateUser, hu] at huid2 husers2
    exact ⟨husers2, huid2⟩
  · intro u hu
    cases hone : findUserByAddr s (jsToLowerCase i.fromAddress) with
    | some w =>
      simp only [findOrCreateUser, hone] at husers2
      rw [husers2]
      exact hu
    | none =>
      simp only [findOrCreateUser, hone] at husers2
      rw [husers2]
      exact List.mem_append_left _ hu

/-- C9 witness: ingesting the demo record into the empty store creates the
user row for the lowercased sender address with role USER, referenced by the
stored transaction. -/
theorem user_keyed_by_lowercased_address_inst :
    store1.users = store0.users ++
      [{ id := store0.nextUserId, walletAddress := jsToLowerCase i1.fromAddress,
         role := UserRole.USER }]
    ∧ tx1.userId = store0.nextUserId :=
  (user_keyed_by_lowercased_address store0 i1 tx1 store1 (by decide) (by decide)).1 (by decide)

/-- C2: the classifier returns transfer exactly when the transferred value
is positive and conversion otherwise; the parsed status flag is success
exactly when the provider reported the 0x1 status; the persisted row's type
is the classifier's output and its status is completed exactly when the flag
is success and failed otherwise.  Concretely, a one-ETH success activity is
stored as transfer and completed, and a zero-value 0x0 activity as
conversion and failed. -/
theorem classifier_and_status_spec (i : ProcessTransactionInput) (v : Int) (s : Store)
    (r : Transaction) (s2 : Store) (now : Nat) (env : Envelope) (a : Activity)
    (q : ProcessTransactionInput) :
    (jsBigInt i.value = some v →
      determineTransactionType i =
        Except.ok (if 0 < v then TransactionType.TRANSFER else TransactionType.CONVERSION))
    ∧ (firstActivity env = some a → parseAlchemyWebhook now env = some q →
        (q.status = StatusFlag.success ↔ a.status = some "0x1"))
    ∧ (findTxByHash s i.txHash = none → processTransaction s i = Except.ok (r, s2) →
        determineTransactionType i = Except.ok r.type
        ∧ (r.status = TransactionStatus.COMPLETED ↔ i.status = StatusFlag.success)
        ∧ (r.status = TransactionStatus.FAILED ↔ ¬ i.status = StatusFlag.success))
    ∧ ((parseAlchemyWebhook 0 env1).bind (fun j => (processTransaction store0 j).toOption)
        |>.map (fun p => (p.1.type, p.1.status)))
        = some (TransactionType.TRANSFER, TransactionStatus.COMPLETED)
    ∧ ((parseAlchemyWebhook 0 env2).bind (fun j => (processTransaction store0 j).toOption)
        |>.map (fun p => (p.1.type, p.1.status)))
        = some (TransactionType.CONVERSION, TransactionStatus.FAILED) := by
  refine ⟨?_, ?_, ?_, by decide, by decide⟩
  · intro hv
    simp only [determineTransactionType, hv]
    split <;> rfl
  · intro hfa hq
    simp only [parseAlchemyWebhook, hfa] at hq
    split at hq
    · exact Option.noConfusion hq
    · cases Option.some.inj hq
      split <;> simp_all
  · intro hfind hp
    obtain ⟨gu, gp, bn, hty2, hgu2, hgp2, hbn2, hst2, hgf2, hfa2, hbcast, hhash,
      hid2, huid2, husers2, htx⟩ := processTransaction_create_inv s i r s2 hfind hp
    refine ⟨hty2, ?_, ?_⟩ <;> rw [hst2] <;>
      by_cases hss : i.status = StatusFlag.success <;> simp [hss]

/-- C2 witness: the demo one-ETH success record is classified transfer (its
value is positive), its parsed flag matches the provider 0x1 status, and the
stored row's type agrees with the classifier. -/
theorem classifier_and_status_spec_inst :
    determineTransactionType i1 =
      Except.ok (if 0 < (1000000000000000000 : Int) then TransactionType.TRANSFER
        else TransactionType.CONVERSION)
    ∧ (i1.status = StatusFlag.success ↔ act1.status = some "0x1")
    ∧ determineTransactionType i1 = Except.ok tx1.type :=
  ⟨(classifier_and_status_spec i1 1000000000000000000 store0 tx1 store1 0 env1 act1 i1).1
      (by decide),
   (classifier_and_status_spec i1 1000000000000000000 store0 tx1 store1 0 env1 act1 i1).2.1
      (by decide) (by decide),
   ((classifier_and_status_spec i1 1000000000000000000 store0 tx1 store1 0 env1 act1 i1).2.2.1
      (by decide) (by decide)).1⟩

/-- C3: the stored gas fee in wei is the exact arbitrary-precision product
of gasUsed and gasPrice; for gasUsed 21000 and gasPrice 30000000000 the
stored string is exactly 630000000000000. -/
theorem gas_fee_exact_product (s : Store) (i : ProcessTransactionInput)
    (r : Transaction) (s2 : Store) (gu gp : Int) :
    (findTxByHash s i.txHash = none → jsBigInt i.gasUsed = some gu →
      jsBigInt i.gasPrice = some gp → processTransaction s i = Except.ok (r, s2) →
      r.gasFeeWei = toString (gu * gp))
    ∧ toString ((21000 : Int) * 30000000000) = "630000000000000"
    ∧ tx1.gasFeeWei = "630000000000000" := by
  refine ⟨?_, by decide, by decide⟩
  intro hfind hgu hgp hp
  obtain ⟨gu2, gp2, bn, hty2, hgu2, hgp2, hbn2, hst2, hgf2, hfa2, hbcast, hhash,
    hid2, huid2, husers2, htx⟩ := processTransaction_create_inv s i r s2 hfind hp
  rw [hgu] at hgu2
  rw [hgp] at hgp2
  rw [hgf2, ← Option.some.inj hgu2, ← Option.some.inj hgp2]

/-- C3 witness: the stored demo row's gas fee equals the exact product of
its gas inputs. -/
theorem gas_fee_exact_product_inst :
    tx1.gasFeeWei = toString ((21000 : Int) * 30000000000) :=
  (gas_fee_exact_product store0 i1 tx1 store1 21000 30000000000).1
    (by decide) (by decide) (by decide) (by decide)

/-- With a configured key, verification of a present signature succeeds
exactly when it equals the keyed hash of the body; in particular a
wrong-length signature, whose constant-time comparison throws, verifies
false. -/
theorem verify_some_iff (hmac : String → String → String) (key body v : String) :
    verifyWebhookSignature hmac (some key) body (some v) = true ↔ v = hmac key body := by
  unfold verifyWebhookSignature timingSafeEqualE
  by_cases hlen : v.utf8ByteSize = (hmac key body).utf8ByteSize
  · simp [hlen]
  · simp only [hlen, if_false]
    constructor
    · intro h
      cases h
    · intro h
      exact absurd (congrArg String.utf8ByteSize h) hlen

/-- C8: the signature verifier is total and fails closed.  With no
configured key it accepts; with a key and no signature header it returns
false; with a key and a claimed signature it returns a boolean that is true
exactly when the claim equals the keyed hash of the body; and whenever the
underlying constant-time comparison throws, the thrown error is absorbed
and the verifier returns false. -/
theorem verify_signature_total_fails_closed (hmac : String → String → String)
    (key body : String) (sig : Option String) (v : String) (e : JsError) :
    verifyWebhookSignature hmac none body sig = true
    ∧ verifyWebhookSignature hmac (some key) body none = false
    ∧ (verifyWebhookSignature hmac (some key) body (some v) = true ↔ v = hmac key body)
    ∧ (timingSafeEqualE v (hmac key body) = Except.error e →
        verifyWebhookSignature hmac (some key) body (some v) = false) := by
  refine ⟨rfl, rfl, verify_some_iff hmac key body v, ?_⟩
  intro he
  simp only [verifyWebhookSignature, he]

/-- C8 witness: a claimed signature of the wrong byte length makes the
comparison throw, and the verifier absorbs that error into false. -/
theorem verify_signature_total_fails_closed_inst :
    verifyWebhookSignature demoHmac (some "k") "body" (some "ab") = false :=
  (verify_signature_total_fails_closed demoHmac "k" "body" none "ab"
    (JsError.genericErr "Input buffers must have the same byte length")).2.2.2 (by decide)

/-- C4 counterexample: with a signing secret configured and the signature
header missing, a request whose body is not valid JSON is answered 500 (the
thrown JSON parse error lands in the generic handler, which runs before the
signature check), not 401 as the claim states for every such request. -/
theorem missing_signature_unparseable_body_gets_500 :
    (POST demoHmac (some "topsecret") 0 store0
      { rawBody := "not json", parsedBody := none, signature := none }).1.1 = 500
    ∧ ¬ (POST demoHmac (some "topsecret") 0 store0
      { rawBody := "not json", parsedBody := none, signature := none }).1.1 = 401 := by
  decide

/-- C4 amended: with a signing secret configured, every POST request whose
body parses as JSON and whose signature header is missing or differs from
the keyed hash of the raw body is rejected with 401 and the error Invalid
signature, with the store untouched; a request whose body does not parse is
instead answered 500, also with the store untouched.  In neither case is
anything persisted. -/
theorem invalid_signature_rejected_401 (hmac : String → String → String) (key : String)
    (now : Nat) (s : Store) (rawBody : String) (env : Envelope) (sig : Option String) :
    ((∀ v, sig = some v → ¬ v = hmac key rawBody) →
      POST hmac (some key) now s
        { rawBody := rawBody, parsedBody := some env, signature := sig }
        = ((401, Resp.err "Invalid signature"), s))
    ∧ (∀ req : PostRequest, req.parsedBody = none →
        (POST hmac (some key) now s req).1.1 = 500 ∧ (POST hmac (some key) now s req).2 = s) := by
  constructor
  · intro hne
    have hv : verifyWebhookSignature hmac (some key) rawBody sig = false := by
      cases sig with
      | none => rfl
      | some v =>
        cases hb : verifyWebhookSignature hmac (some key) rawBody (some v) with
        | true => exact absurd ((verify_some_iff hmac key rawBody v).mp hb) (hne v rfl)
        | false => rfl
    simp [POST, hv]
  · intro req hreq
    constructor <;> simp [POST, hreq, handleApiError]

/-- C4 witness: valid-JSON body, configured secret, missing signature
header: the response is 401 Invalid signature and the store is unchanged. -/
theorem invalid_signature_rejected_401_inst :
    POST demoHmac (some "k") 0 store0
      { rawBody := "{}", parsedBody := some envNoAct, signature := none }
      = ((401, Resp.err "Invalid signature"), store0) :=
  (invalid_signature_rejected_401 demoHmac "k" 0 store0 "{}" envNoAct none).1
    (fun _ hv => Option.noConfusion hv)

/-- C5: an envelope with no first activity entry makes the parser return
the explicit no-data result rather than throwing, and a request carrying
such an envelope past signature verification is answered 400 with the store
untouched. -/
theorem missing_activity_yields_no_data_and_400 (now : Nat) (env : Envelope)
    (hmac : String → String → String) (secret : Option String) (s : Store)
    (rawBody : String) (sig : Option String) :
    (firstActivity env = none → parseAlchemyWebhook now env = none)
    ∧ (firstActivity env = none →
        verifyWebhookSignature hmac secret rawBody sig = true →
        POST hmac secret now s
          { rawBody := rawBody, parsedBody := some env, signature := sig }
          = ((400, Resp.err "Invalid webhook payload"), s)) := by
  constructor
  · intro hfa
    simp [parseAlchemyWebhook, hfa]
  · intro hfa hv
    have hparse : parseAlchemyWebhook now env = none := by simp [parseAlchemyWebhook, hfa]
    simp [POST, hv, hparse]

/-- C5 witness: the envelope without an event member parses to the no-data
result and is answered 400 on the empty store. -/
theorem missing_activity_yields_no_data_and_400_inst :
    parseAlchemyWebhook 0 envNoAct = none
    ∧ POST demoHmac none 0 store0
        { rawBody := "{}", parsedBody := some envNoAct, signature := none }
        = ((400, Resp.err "Invalid webhook payload"), store0) :=
  ⟨(missing_activity_yields_no_data_and_400 0 envNoAct demoHmac none store0 "{}" none).1 rfl,
   (missing_activity_yields_no_data_and_400 0 envNoAct demoHmac none store0 "{}" none).2 rfl rfl⟩

/-- C7 counterexample: a POST request whose body is not valid JSON is
answered 500 (the parse error reaches the generic handler), not 400 as the
claim states. -/
theorem unparseable_body_gets_500_not_400 :
    (POST demoHmac none 0 store0
      { rawBody := "\x7b", parsedBody := none, signature := none }).1.1 = 500
    ∧ ¬ (POST demoHmac none 0 store0
      { rawBody := "\x7b", parsedBody := none, signature := none }).1.1 = 400 := by
  decide

/-- C7 amended: a request whose body does not parse as JSON is answered 500
through the generic error handler (carrying the parse error message), with
the store untouched; 400 is returned when the body parses, the signature
check passes and the payload yields the no-data result. -/
theorem unparseable_body_error_path (hmac : String → String → String)
    (secret : Option String) (now : Nat) (s : Store) (req : PostRequest) (env : Envelope) :
    (req.parsedBody = none →
      (POST hmac secret now s req).1.1 = 500 ∧ (POST hmac secret now s req).2 = s)
    ∧ (req.parsedBody = some env →
        verifyWebhookSignature hmac secret req.rawBody req.signature = true →
        parseAlchemyWebhook now env = none →
        (POST hmac secret now s req).1.1 = 400) := by
  constructor
  · intro hreq
    constructor <;> simp [POST, hreq, handleApiError]
  · intro hreq hv hparse
    simp [POST, hreq, hv, hparse]

/-- C7 witness: an unparseable body is answered 500 and writes nothing. -/
theorem unparseable_body_error_path_inst :
    (POST demoHmac (some "s3cret") 7 store0
      { rawBody := "][", parsedBody := none, signature := some "x" }).1.1 = 500
    ∧ (POST demoHmac (some "s3cret") 7 store0
      { rawBody := "][", parsedBody := none, signature := some "x" }).2 = store0 :=
  (unparseable_body_error_path demoHmac (some "s3cret") 7 store0
    { rawBody := "][", parsedBody := none, signature := some "x" } envNoAct).1 rfl

/-- C6 counterexample: the hex block number 0x20000000000001 reads as the
integer 9007199254740993 (two to the 53 plus one), but the parser stores
9007199254740992: parseInt goes through a binary64 double, so the block
number is not converted to its exact decimal value and is in fact coerced
to floating point. -/
theorem blockNumber_float64_precision_loss :
    hexStrVal? "0x20000000000001" = some 9007199254740993
    ∧ (parseAlchemyWebhook 0 envC6).map (fun j => j.blockNumber)
        = some (some 9007199254740992) := by
  decide

/-- C6 amended: the parser converts the hex block number through parseInt,
which produces an IEEE-754 double, exact only below 2 ^ 53; the value,
gasUsed and gasPrice fields are carried as strings unchanged and their
BigInt conversions flow into the stored row exactly (arbitrary precision,
never coerced to floating point), as does the block number once it is a
representable integer. -/
theorem numeric_field_handling_spec (now : Nat) (env : Envelope) (a : Activity)
    (i : ProcessTransactionInput) :
    (firstActivity env = some a → parseAlchemyWebhook now env = some i →
      i.value = jsOrString a.value "0"
      ∧ i.gasUsed = jsOrString a.gasUsed "0"
      ∧ i.gasPrice = jsOrString a.gasPrice "0"
      ∧ ∀ h v, a.blockNum = some h → hexStrVal? h = some v → v < 2 ^ 53 →
          i.blockNumber = some v)
    ∧ (∀ s r s2 bn gu gp, findTxByHash s i.txHash = none →
        processTransaction s i = Except.ok (r, s2) → i.blockNumber = some bn →
        jsBigInt i.gasUsed = some gu → jsBigInt i.gasPrice = some gp →
        r.blockNumber = (bn : Int) ∧ r.fromTokenAmount = i.value
        ∧ r.gasFeeWei = toString (gu * gp)) := by
  constructor
  · intro hfa hq
    simp only [parseAlchemyWebhook, hfa] at hq
    split at hq
    · exact Option.noConfusion hq
    · cases Option.some.inj hq
      refine ⟨rfl, rfl, rfl, ?_⟩
      intro h v hbn hv hlt
      have hle : (2 : Nat) ^ 53 ≤ 16 ^ 256 := by decide
      have hvlt : v < 16 ^ 256 := lt_of_lt_of_le hlt hle
      simp only [hbn, jsUndefString, jsParseIntHex, hv, roundToFloat64]
      rw [if_neg (not_le.mpr hvlt), if_pos hlt, if_pos hvlt]
  · intro s r s2 bn gu gp hfind hp hbn hgu hgp
    obtain ⟨gu2, gp2, bn2, hty2, hgu2, hgp2, hbn2, hst2, hgf2, hfa2, hbcast, hhash,
      hid2, huid2, husers2, htx⟩ := processTransaction_create_inv s i r s2 hfind hp
    rw [hbn] at hbn2
    rw [hgu] at hgu2
    rw [hgp] at hgp2
    refine ⟨?_, hfa2, ?_⟩
    · rw [hbcast, Option.some.inj hbn2]
    · rw [hgf2, ← Option.some.inj hgu2, ← Option.some.inj hgp2]

/-- C6 witness: the demo activity's fields flow through the parser as
strings, its small hex block number 0x10 converts exactly to 16, and the
stored row carries the exact block number and gas-fee product. -/
theorem numeric_field_handling_spec_inst :
    (i1.value = jsOrString act1.value "0"
      ∧ i1.gasUsed = jsOrString act1.gasUsed "0"
      ∧ i1.gasPrice = jsOrString act1.gasPrice "0")
    ∧ i1.blockNumber = some 16
    ∧ (tx1.blockNumber = (16 : Int) ∧ tx1.fromTokenAmount = i1.value
        ∧ tx1.gasFeeWei = toString ((21000 : Int) * 30000000000)) := by
  have h := numeric_field_handling_spec 0 env1 act1 i1
  have h1 := h.1 (by decide) (by decide)
  exact ⟨⟨h1.1, h1.2.1, h1.2.2.1⟩,
    h1.2.2.2 "0x10" 16 (by decide) (by decide) (by decide),
    h.2 store0 tx1 store1 16 21000 30000000000
      (by decide) (by decide) (by decide) (by decide) (by decide)⟩

/-- C10 counterexample: the falsy chain id zero is not among the six
configured networks, yet the parser does not return the no-data result: the
or-else default turns zero into 1 and the activity parses as an ethereum
record. -/
theorem falsy_chainId_defaults_to_ethereum :
    (firstActivity env10).map (fun a => a.chainId) = some (some 0)
    ∧ ¬ ((0 : Int) ∈ NETWORK_CONFIG.map Prod.snd)
    ∧ (parseAlchemyWebhook 0 env10).map (fun j => (j.network, j.chainId))
        = some ("ethereum", 1) := by
  decide

/-- C10 amended: an activity carrying a truthy (nonzero) chain id that is
not among the six configured networks makes the chain-id lookup throw, the
parser's catch converts it to the no-data result, and a request carrying it
past signature verification is answered 400 with the store untouched; a
falsy chain id (absent or zero) instead defaults to chain 1. -/
theorem unknown_chainId_rejected (now : Nat) (env : Envelope) (a : Activity) (c : Int)
    (hmac : String → String → String) (secret : Option String) (s : Store)
    (rawBody : String) (sig : Option String) :
    (firstActivity env = some a → a.chainId = some c → ¬ c = 0 →
      ¬ (c ∈ NETWORK_CONFIG.map Prod.snd) →
      parseAlchemyWebhook now env = none)
    ∧ (firstActivity env = some a → a.chainId = some c → ¬ c = 0 →
        ¬ (c ∈ NETWORK_CONFIG.map Prod.snd) →
        verifyWebhookSignature hmac secret rawBody sig = true →
        POST hmac secret now s
          { rawBody := rawBody, parsedBody := some env, signature := sig }
          = ((400, Resp.err "Invalid webhook payload"), s)) := by
  have key : ¬ c = 0 → ¬ (c ∈ NETWORK_CONFIG.map Prod.snd) →
      getNetworkFromChainId (jsOrInt (some c) 1)
        = Except.error (JsError.genericErr "Unknown chain ID") := by
    intro hc hmem
    have hj : jsOrInt (some c) 1 = c := by simp [jsOrInt, hc]
    rw [hj]
    unfold getNetworkFromChainId
    have hfind : NETWORK_CONFIG.find? (fun p => p.2 == c) = none := by
      rw [List.find?_eq_none]
      intro p hp
      simp only [beq_iff_eq]
      intro hpc
      exact hmem (List.mem_map.mpr ⟨p, hp, hpc⟩)
    rw [hfind]
  have hparse : firstActivity env = some a → a.chainId = some c → ¬ c = 0 →
      ¬ (c ∈ NETWORK_CONFIG.map Prod.snd) → parseAlchemyWebhook now env = none := by
    intro hfa hcid hc hmem
    simp only [parseAlchemyWebhook, hfa, hcid, key hc hmem]
  refine ⟨hparse, ?_⟩
  intro hfa hcid hc hmem hv
  simp [POST, hv, hparse hfa hcid hc hmem]

/-- C10 witness: chain id 4202 (Lisk Sepolia, configured for contracts but
absent from the indexer networks) makes the parser return the no-data
result. -/
theorem unknown_chainId_rejected_inst :
    parseAlchemyWebhook 0 env10b = none :=
  (unknown_chainId_rejected 0 env10b act10b 4202 demoHmac none store0 "{}" none).1
    (by decide) (by decide) (by decide) (by decide)

end KeloPay
